import Mathlib

/-!
Verification of the SandboxTown v2 rule engine.

Shallow embedding of `sandboxtown_v2/core`: the hysteresis transition
engine (`stability_rules.py`), the contagion modulator (`contagion.py`),
the environment up/downshift policy (`multi_agent_simulation.py`) and the
single-agent simulation runner (`simulation_runner.py`).  Python floats
are modelled as rationals (ℚ); all comparisons in the source are order
comparisons that carry over exactly.
-/

namespace SandboxTown

/-- Embedding of `AgentState` from `core/agent_state.py`: the closed enumeration
`Stable`, `Loaded`, `Help-Seeking`, `Rest`, `Recovered`. -/
inductive AgentState where
  | STABLE
  | LOADED
  | HELP_SEEKING
  | REST
  | RECOVERED
  deriving DecidableEq, Repr

/-- Embedding of `AgentStatus` from `core/agent_state.py`: an immutable
(state, stability) pair.  Stability is a float in the source, modelled
as ℚ. -/
structure AgentStatus where
  state : AgentState
  stability : ℚ
  deriving DecidableEq, Repr

/-- Embedding of `TransitionEvent` from `core/stability_rules.py`: the closed event
enumeration.  The source enum has exactly these seven members. -/
inductive TransitionEvent where
  | ENTER_HELP
  | EXIT_HELP
  | ENTER_REST
  | EXIT_REST
  | RECOVERED_TO_STABLE
  | ENV_DOWNSHIFT
  | ENV_UPSHIFT
  deriving DecidableEq, Repr

/-- Embedding of `TransitionResult` from `core/stability_rules.py`: next status plus a
tuple of events (in practice zero or one). -/
structure TransitionResult where
  next_status : AgentStatus
  events : List TransitionEvent
  deriving DecidableEq, Repr

/-- The `TransitionResult.event` property: first event if any, else `none`. -/
def TransitionResult.event (r : TransitionResult) : Option TransitionEvent :=
  r.events.head?

/-- Embedding of `Thresholds` from `core/stability_rules.py`: five scalar cut points. -/
structure Thresholds where
  help_enter : ℚ
  help_exit : ℚ
  rest_enter : ℚ
  rest_exit : ℚ
  visual_min_stable : ℚ
  deriving DecidableEq, Repr

/-- The validation performed in `Thresholds.__post_init__`: a
`Thresholds` value that constructs without raising.  HELP may be disabled
by making both `help_enter` and `help_exit` negative. -/
def Thresholds.valid (t : Thresholds) : Prop :=
  (0 ≤ t.visual_min_stable ∧ t.visual_min_stable ≤ 1) ∧
  (0 ≤ t.rest_enter ∧ t.rest_enter ≤ 1 ∧ 0 ≤ t.rest_exit ∧ t.rest_exit ≤ 1) ∧
  t.rest_enter < t.rest_exit ∧
  (¬(t.help_enter < 0 ∧ t.help_exit < 0) →
    (0 ≤ t.help_enter ∧ t.help_enter ≤ 1 ∧ 0 ≤ t.help_exit ∧ t.help_exit ≤ 1) ∧
    t.help_enter < t.help_exit)

instance (t : Thresholds) : Decidable t.valid := by
  unfold Thresholds.valid; infer_instance

/-- Embedding of `_help_enabled` from `core/stability_rules.py`: HELP is enabled unless
both `help_enter` and `help_exit` are negative. -/
def help_enabled (th : Thresholds) : Bool :=
  ! (decide (th.help_enter < 0) && decide (th.help_exit < 0))

/-- Embedding of `_rest_enabled` from `core/stability_rules.py`: always true. -/
def rest_enabled (_ : Thresholds) : Bool :=
  true

/-- Embedding of `is_unstable_state` from `core/stability_rules.py`: anything other
than `STABLE`. -/
def is_unstable_state (s : AgentState) : Bool :=
  decide (s ≠ AgentState.STABLE)

/-- Embedding of `next_agent_status` from `core/stability_rules.py` (lines 101-151),
branch for branch:
1. HELP sticky: in `HELP_SEEKING` with HELP enabled, exit to `RECOVERED`
   with `EXIT_HELP` iff `x >= help_exit`, else remain with no event.
2. HELP entry: HELP enabled and `x <= help_enter` gives `HELP_SEEKING`
   with `ENTER_HELP`.
3. REST sticky: in `REST`, exit to `RECOVERED` with `EXIT_REST` iff
   `x >= rest_exit`, else remain.
4. REST entry: `x < rest_enter` (strict) gives `REST` with `ENTER_REST`.
5. `RECOVERED` with `x >= visual_min_stable` gives `STABLE` with
   `RECOVERED_TO_STABLE`.
6. `LOADED` with `x >= visual_min_stable` gives `STABLE`, no event.
7. Otherwise unchanged, no event. -/
def next_agent_status (a : AgentStatus) (thresholds : Thresholds) : TransitionResult :=
  let s := a.state
  let x := a.stability
  let help_on := help_enabled thresholds
  let rest_on := rest_enabled thresholds
  if s = AgentState.HELP_SEEKING ∧ help_on = true then
    if x ≥ thresholds.help_exit then
      ⟨⟨AgentState.RECOVERED, x⟩, [TransitionEvent.EXIT_HELP]⟩
    else
      ⟨⟨AgentState.HELP_SEEKING, x⟩, []⟩
  else if help_on = true ∧ x ≤ thresholds.help_enter then
    ⟨⟨AgentState.HELP_SEEKING, x⟩, [TransitionEvent.ENTER_HELP]⟩
  else if s = AgentState.REST ∧ rest_on = true then
    if x ≥ thresholds.rest_exit then
      ⟨⟨AgentState.RECOVERED, x⟩, [TransitionEvent.EXIT_REST]⟩
    else
      ⟨⟨AgentState.REST, x⟩, []⟩
  else if rest_on = true ∧ x < thresholds.rest_enter then
    ⟨⟨AgentState.REST, x⟩, [TransitionEvent.ENTER_REST]⟩
  else if s = AgentState.RECOVERED ∧ x ≥ thresholds.visual_min_stable then
    ⟨⟨AgentState.STABLE, x⟩, [TransitionEvent.RECOVERED_TO_STABLE]⟩
  else if s = AgentState.LOADED ∧ x ≥ thresholds.visual_min_stable then
    ⟨⟨AgentState.STABLE, x⟩, []⟩
  else
    ⟨⟨s, x⟩, []⟩

/-- Embedding of `EnvironmentState` from `core/environment_state.py`: `Calm`,
`Active`, `Dense`. -/
inductive EnvironmentState where
  | CALM
  | ACTIVE
  | DENSE
  deriving DecidableEq, Repr

/-- Embedding of `environment_downshift_if_needed` from `core/stability_rules.py`
(lines 158-164): `Dense` plus any unstable agent downshifts to `Calm`
with `ENV_DOWNSHIFT`; otherwise unchanged, no event. -/
def environment_downshift_if_needed (env : EnvironmentState)
    (any_agent_unstable : Bool) : EnvironmentState × Option TransitionEvent :=
  if env = EnvironmentState.DENSE ∧ any_agent_unstable = true then
    (EnvironmentState.CALM, some TransitionEvent.ENV_DOWNSHIFT)
  else
    (env, none)

/-- Embedding of `environment_upshift_if_needed` from
`core/multi_agent_simulation.py` (lines 43-56): all agents stable plus
`Calm` upshifts to `Dense` with `ENV_UPSHIFT`; otherwise unchanged. -/
def environment_upshift_if_needed (env : EnvironmentState)
    (all_agents_stable : Bool) : EnvironmentState × Option TransitionEvent :=
  if all_agents_stable = true ∧ env = EnvironmentState.CALM then
    (EnvironmentState.DENSE, some TransitionEvent.ENV_UPSHIFT)
  else
    (env, none)

/-- Embedding of `_is_unstable` from `core/multi_agent_simulation.py` (lines 38-40):
the "unstable" bucket for environment downshift, `HELP_SEEKING` or
`REST`. -/
def ma_is_unstable (s : AgentState) : Bool :=
  decide (s = AgentState.HELP_SEEKING ∨ s = AgentState.REST)

/-- The environment gating inside `run_multi_agent_simulation`
(`core/multi_agent_simulation.py` lines 128-137), applied to the list of
post-transition agent states of one step:
`any_unstable = any(_is_unstable(a.state) for a in next_agents)`;
`all_stable = not any_unstable`; downshift first, and upshift only when
the downshift left the environment unchanged with no event. -/
def multi_agent_env_update (env : EnvironmentState)
    (next_states : List AgentState) : EnvironmentState × Option TransitionEvent :=
  let any_unstable := next_states.any ma_is_unstable
  let all_stable := ! any_unstable
  let d := environment_downshift_if_needed env any_unstable
  if d.1 = env ∧ d.2 = none then
    environment_upshift_if_needed env all_stable
  else
    d

/-- Embedding of `ContagionConfig` from `core/contagion.py` (lines 10-36). -/
structure ContagionConfig where
  enabled : Bool := true
  delta : ℚ := 5 / 100
  max_total_delta : ℚ := 30 / 100
  dense_scale : ℚ := 1
  calm_scale : ℚ := 1 / 2
  source_states : List AgentState := [AgentState.HELP_SEEKING, AgentState.REST]
  only_affects_stable : Bool := false
  deriving DecidableEq, Repr

/-- Embedding of `_clamp01` from `core/contagion.py`. -/
def clamp01 (x : ℚ) : ℚ :=
  if x < 0 then 0 else if x > 1 then 1 else x

/-- Embedding of `apply_contagion` from `core/contagion.py` (lines 47-92).  A raised
`ValueError` is modelled as `Except.error`.  Order of the guards follows
the source: the disabled early-return precedes the length check. -/
def apply_contagion (raw_stabilities : List ℚ) (current_states : List AgentState)
    (env : EnvironmentState) (cfg : ContagionConfig) : Except String (List ℚ) :=
  if cfg.enabled = false then
    Except.ok raw_stabilities
  else if raw_stabilities.length ≠ current_states.length then
    Except.error "raw_stabilities and current_states must be the same length."
  else
    let num_sources := (current_states.filter (fun s => s ∈ cfg.source_states)).length
    if num_sources = 0 then
      Except.ok raw_stabilities
    else
      let env_scale := if env = EnvironmentState.DENSE then cfg.dense_scale else cfg.calm_scale
      let pre_influence := cfg.delta * (num_sources : ℚ) * env_scale
      let total_influence :=
        if pre_influence > cfg.max_total_delta then cfg.max_total_delta else pre_influence
      Except.ok <| (raw_stabilities.zip current_states).map fun p =>
        if p.2 ∈ cfg.source_states then
          clamp01 p.1
        else if cfg.only_affects_stable = true ∧ p.2 ≠ AgentState.STABLE then
          clamp01 p.1
        else
          clamp01 (p.1 - total_influence)

/-- Embedding of `SimulationStep` from `core/simulation_runner.py`: one step of the
single-agent run, a status plus an event tuple. -/
structure SimulationStep where
  status : AgentStatus
  events : List TransitionEvent
  deriving DecidableEq, Repr

/-- The `SimulationStep.event` property: first event or `none`. -/
def SimulationStep.event (s : SimulationStep) : Option TransitionEvent :=
  s.events.head?

/-- Embedding of `run_simulation` from `core/simulation_runner.py` (lines 33-66): at
each step keep the previous state, substitute the next stability sample,
apply `next_agent_status`, record the step, advance. -/
def run_simulation (start : AgentStatus) (stabilities : List ℚ)
    (thresholds : Thresholds) : List SimulationStep :=
  match stabilities with
  | [] => []
  | st :: rest =>
    let sampled : AgentStatus := ⟨start.state, st⟩
    let result := next_agent_status sampled thresholds
    ⟨result.next_status, result.events⟩ :: run_simulation result.next_status rest thresholds


/-! ## Concrete threshold configurations used by witnesses and counterexamples -/

/-- The spec's end-to-end scenario thresholds:
`help_enter=0.30, help_exit=0.40, rest_enter=0.20, rest_exit=0.35,
visual_min_stable=0.75`. -/
def th0 : Thresholds := ⟨3/10, 2/5, 1/5, 7/20, 3/4⟩

/-- Thresholds with HELP disabled by the negative sentinel, as in the
repository's tests (`help_enter = help_exit = -1`). -/
def th_help_off : Thresholds := ⟨-1, -1, 1/5, 7/20, 3/4⟩

/-- Thresholds whose REST band sits at the spec's strict-entry example
(`rest_enter=0.60`). -/
def th1 : Thresholds := ⟨3/10, 2/5, 3/5, 7/10, 3/4⟩

/-! ## Claims -/

/-- C1: HELP is sticky.  For every `Thresholds` with HELP enabled and
every stability `x`, from state `HELP_SEEKING` the engine stays in
`HELP_SEEKING` with no event when `x < help_exit`, moves to `RECOVERED`
emitting exactly `EXIT_HELP` when `x ≥ help_exit`, and no next state
other than these two is reachable. -/
theorem help_sticky (th : Thresholds) (x : ℚ) (h : help_enabled th = true) :
    (x < th.help_exit →
      next_agent_status ⟨AgentState.HELP_SEEKING, x⟩ th =
        ⟨⟨AgentState.HELP_SEEKING, x⟩, []⟩) ∧
    (th.help_exit ≤ x →
      next_agent_status ⟨AgentState.HELP_SEEKING, x⟩ th =
        ⟨⟨AgentState.RECOVERED, x⟩, [TransitionEvent.EXIT_HELP]⟩) ∧
    ((next_agent_status ⟨AgentState.HELP_SEEKING, x⟩ th).next_status.state =
        AgentState.HELP_SEEKING ∨
     (next_agent_status ⟨AgentState.HELP_SEEKING, x⟩ th).next_status.state =
        AgentState.RECOVERED) := by
  refine ⟨fun hx => ?_, fun hx => ?_, ?_⟩
  · simp [next_agent_status, h, not_le.mpr hx]
  · simp [next_agent_status, h, hx]
  · rcases lt_or_le x th.help_exit with hx | hx
    · simp [next_agent_status, h, not_le.mpr hx]
    · simp [next_agent_status, h, hx]

/-- C1 witness: `help_sticky` applied to the scenario thresholds at
stability `1/2 ≥ help_exit = 2/5`. -/
theorem help_sticky_witness :
    help_enabled th0 = true ∧
    (((1:ℚ)/2 < th0.help_exit →
      next_agent_status ⟨AgentState.HELP_SEEKING, 1/2⟩ th0 =
        ⟨⟨AgentState.HELP_SEEKING, 1/2⟩, []⟩) ∧
    (th0.help_exit ≤ (1:ℚ)/2 →
      next_agent_status ⟨AgentState.HELP_SEEKING, 1/2⟩ th0 =
        ⟨⟨AgentState.RECOVERED, 1/2⟩, [TransitionEvent.EXIT_HELP]⟩) ∧
    ((next_agent_status ⟨AgentState.HELP_SEEKING, 1/2⟩ th0).next_status.state =
        AgentState.HELP_SEEKING ∨
     (next_agent_status ⟨AgentState.HELP_SEEKING, 1/2⟩ th0).next_status.state =
        AgentState.RECOVERED)) :=
  ⟨by norm_num [help_enabled, th0], help_sticky th0 (1/2) (by norm_num [help_enabled, th0])⟩

/-- C2: HELP entry preempts REST.  For every `Thresholds` with HELP
enabled and every status whose state is not `HELP_SEEKING`, a stability
at or below `help_enter` (inclusive boundary) transitions to
`HELP_SEEKING` emitting `ENTER_HELP`, whatever the current state (the
REST-sticky and REST-entry branches come later in the priority order). -/
theorem help_entry_preempts_rest (th : Thresholds) (a : AgentStatus)
    (h : help_enabled th = true) (hs : a.state ≠ AgentState.HELP_SEEKING)
    (hx : a.stability ≤ th.help_enter) :
    next_agent_status a th =
      ⟨⟨AgentState.HELP_SEEKING, a.stability⟩, [TransitionEvent.ENTER_HELP]⟩ := by
  simp [next_agent_status, h, hs, hx]

/-- C2 witness: from state `REST` at stability `3/20`, which also
satisfies the REST-entry condition (`3/20 < rest_enter = 1/5`), the
engine still enters HELP. -/
theorem help_entry_preempts_rest_witness :
    help_enabled th0 = true ∧
    (AgentStatus.state ⟨AgentState.REST, 3/20⟩ ≠ AgentState.HELP_SEEKING) ∧
    AgentStatus.stability ⟨AgentState.REST, 3/20⟩ ≤ th0.help_enter ∧
    AgentStatus.stability ⟨AgentState.REST, 3/20⟩ < th0.rest_enter ∧
    next_agent_status ⟨AgentState.REST, 3/20⟩ th0 =
      ⟨⟨AgentState.HELP_SEEKING, 3/20⟩, [TransitionEvent.ENTER_HELP]⟩ :=
  ⟨by norm_num [help_enabled, th0], by simp, by norm_num [th0], by norm_num [th0],
    help_entry_preempts_rest th0 ⟨AgentState.REST, 3/20⟩
      (by norm_num [help_enabled, th0]) (by simp) (by norm_num [th0])⟩

/-- C3 counterexample: with the scenario thresholds (valid) and a
`STABLE` agent at stability `1/2` — squarely in the middle band
(`rest_enter = 1/5 ≤ 1/2 < 3/4 = visual_min_stable`), HELP entry not
applying — the engine leaves the agent `STABLE` with no event; it does
not transition to `LOADED` (and the source's `TransitionEvent` enum has
no `LOADED` member at all). -/
theorem middle_band_counterexample :
    th0.valid ∧
    (AgentStatus.state ⟨AgentState.STABLE, 1/2⟩ ≠ AgentState.LOADED) ∧
    ¬(help_enabled th0 = true ∧ (1:ℚ)/2 ≤ th0.help_enter) ∧
    th0.rest_enter ≤ (1:ℚ)/2 ∧ (1:ℚ)/2 < th0.visual_min_stable ∧
    next_agent_status ⟨AgentState.STABLE, 1/2⟩ th0 =
      ⟨⟨AgentState.STABLE, 1/2⟩, []⟩ ∧
    (next_agent_status ⟨AgentState.STABLE, 1/2⟩ th0).next_status.state ≠
      AgentState.LOADED := by
  refine ⟨?_, by simp, ?_, ?_, ?_, ?_, ?_⟩
  · unfold Thresholds.valid th0; norm_num
  · norm_num [help_enabled, th0]
  · norm_num [th0]
  · norm_num [th0]
  · norm_num [next_agent_status, th0, help_enabled, rest_enabled]; simp
  · norm_num [next_agent_status, th0, help_enabled, rest_enabled]; simp

/-- C3 amended: in the middle band (HELP entry not applying,
`rest_enter ≤ x < visual_min_stable`), an agent that is not `LOADED`,
not `HELP_SEEKING` and not `REST` is left entirely unchanged with no
event — there is no transition to `LOADED` and no `LOADED` event. -/
theorem middle_band_no_change (th : Thresholds) (a : AgentStatus)
    (hs1 : a.state ≠ AgentState.LOADED) (hs2 : a.state ≠ AgentState.HELP_SEEKING)
    (hs3 : a.state ≠ AgentState.REST)
    (hh : ¬(help_enabled th = true ∧ a.stability ≤ th.help_enter))
    (hlo : th.rest_enter ≤ a.stability) (hhi : a.stability < th.visual_min_stable) :
    next_agent_status a th = ⟨⟨a.state, a.stability⟩, []⟩ := by
  rcases ha : a.state <;> simp_all [next_agent_status, rest_enabled,
    not_lt.mpr hlo, not_le.mpr hhi]

/-- C3 amended witness: `middle_band_no_change` at the counterexample's
input. -/
theorem middle_band_no_change_witness :
    (AgentStatus.state ⟨AgentState.STABLE, 1/2⟩ ≠ AgentState.LOADED) ∧
    (AgentStatus.state ⟨AgentState.STABLE, 1/2⟩ ≠ AgentState.HELP_SEEKING) ∧
    (AgentStatus.state ⟨AgentState.STABLE, 1/2⟩ ≠ AgentState.REST) ∧
    ¬(help_enabled th0 = true ∧
      AgentStatus.stability ⟨AgentState.STABLE, 1/2⟩ ≤ th0.help_enter) ∧
    th0.rest_enter ≤ AgentStatus.stability ⟨AgentState.STABLE, 1/2⟩ ∧
    AgentStatus.stability ⟨AgentState.STABLE, 1/2⟩ < th0.visual_min_stable ∧
    next_agent_status ⟨AgentState.STABLE, 1/2⟩ th0 =
      ⟨⟨AgentState.STABLE, 1/2⟩, []⟩ :=
  ⟨by simp, by simp, by simp, by norm_num [help_enabled, th0], by norm_num [th0],
    by norm_num [th0],
    middle_band_no_change th0 ⟨AgentState.STABLE, 1/2⟩ (by simp) (by simp) (by simp)
      (by norm_num [help_enabled, th0]) (by norm_num [th0]) (by norm_num [th0])⟩


/-- C4 counterexample: under a `CALM` environment with a single agent
whose new state is `LOADED` (not `STABLE`), the orchestrator's
environment gating nevertheless upshifts to `DENSE` emitting
`ENV_UPSHIFT`, because `all_stable` is computed as `not any_unstable`
(no agent in `HELP_SEEKING`/`REST`), not as "all agents `STABLE`". -/
theorem env_policy_counterexample :
    multi_agent_env_update EnvironmentState.CALM [AgentState.LOADED] =
      (EnvironmentState.DENSE, some TransitionEvent.ENV_UPSHIFT) ∧
    AgentState.LOADED ≠ AgentState.STABLE := by
  constructor
  · simp [multi_agent_env_update, environment_downshift_if_needed,
      environment_upshift_if_needed, ma_is_unstable]
  · simp

/-- C4 amended: per orchestrator step, evaluated on the post-transition
states: `DENSE` with at least one agent in `HELP_SEEKING`/`REST` becomes
`CALM` with `ENV_DOWNSHIFT`; otherwise `CALM` with no agent in
`HELP_SEEKING`/`REST` (agents in `LOADED` or `RECOVERED` count as calm
enough) becomes `DENSE` with `ENV_UPSHIFT`; in every remaining case the
environment is unchanged with no event, and the upshift is only checked
when the downshift did not fire. -/
theorem env_policy_cases (env : EnvironmentState) (states : List AgentState) :
    (env = EnvironmentState.DENSE ∧ states.any ma_is_unstable = true →
      multi_agent_env_update env states =
        (EnvironmentState.CALM, some TransitionEvent.ENV_DOWNSHIFT)) ∧
    (env = EnvironmentState.CALM ∧ states.any ma_is_unstable = false →
      multi_agent_env_update env states =
        (EnvironmentState.DENSE, some TransitionEvent.ENV_UPSHIFT)) ∧
    (¬(env = EnvironmentState.DENSE ∧ states.any ma_is_unstable = true) →
     ¬(env = EnvironmentState.CALM ∧ states.any ma_is_unstable = false) →
      multi_agent_env_update env states = (env, none)) := by
  cases env <;> cases h : states.any ma_is_unstable <;>
    simp_all [multi_agent_env_update, environment_downshift_if_needed,
      environment_upshift_if_needed]

/-- C4 amended witness: `env_policy_cases` on a `DENSE` environment with
one `REST` agent — the downshift branch fires. -/
theorem env_policy_cases_witness :
    (EnvironmentState.DENSE = EnvironmentState.DENSE ∧
        ([AgentState.REST, AgentState.STABLE].any ma_is_unstable = true) →
      multi_agent_env_update EnvironmentState.DENSE [AgentState.REST, AgentState.STABLE] =
        (EnvironmentState.CALM, some TransitionEvent.ENV_DOWNSHIFT)) ∧
    (EnvironmentState.DENSE = EnvironmentState.CALM ∧
        ([AgentState.REST, AgentState.STABLE].any ma_is_unstable = false) →
      multi_agent_env_update EnvironmentState.DENSE [AgentState.REST, AgentState.STABLE] =
        (EnvironmentState.DENSE, some TransitionEvent.ENV_UPSHIFT)) ∧
    (¬(EnvironmentState.DENSE = EnvironmentState.DENSE ∧
        ([AgentState.REST, AgentState.STABLE].any ma_is_unstable = true)) →
     ¬(EnvironmentState.DENSE = EnvironmentState.CALM ∧
        ([AgentState.REST, AgentState.STABLE].any ma_is_unstable = false)) →
      multi_agent_env_update EnvironmentState.DENSE [AgentState.REST, AgentState.STABLE] =
        (EnvironmentState.DENSE, none)) :=
  env_policy_cases EnvironmentState.DENSE [AgentState.REST, AgentState.STABLE]

/-- C5 counterexample: with the (valid) scenario thresholds, a `STABLE`
agent whose stability is `3/2` passes through `next_agent_status` with
its stability kept at `3/2`, outside `[0,1]` — the transition engine
does not clamp its output. -/
theorem clamp_counterexample :
    th0.valid ∧
    next_agent_status ⟨AgentState.STABLE, 3/2⟩ th0 = ⟨⟨AgentState.STABLE, 3/2⟩, []⟩ ∧
    ¬((next_agent_status ⟨AgentState.STABLE, 3/2⟩ th0).next_status.stability ≤ 1) := by
  refine ⟨?_, ?_, ?_⟩
  · unfold Thresholds.valid th0; norm_num
  · norm_num [next_agent_status, th0, help_enabled, rest_enabled]; simp
  · norm_num [next_agent_status, th0, help_enabled, rest_enabled]; simp; norm_num

/-- C5 amended: for every valid `Thresholds` and every input status, the
returned state is one of the five members of the closed `AgentState` set
and the returned stability equals the input stability unchanged — so it
lies in `[0,1]` exactly when the input does; the engine itself performs
no clamping. -/
theorem engine_output_shape (th : Thresholds) (a : AgentStatus) (_hv : th.valid) :
    (next_agent_status a th).next_status.stability = a.stability ∧
    ((next_agent_status a th).next_status.state = AgentState.STABLE ∨
     (next_agent_status a th).next_status.state = AgentState.LOADED ∨
     (next_agent_status a th).next_status.state = AgentState.HELP_SEEKING ∨
     (next_agent_status a th).next_status.state = AgentState.REST ∨
     (next_agent_status a th).next_status.state = AgentState.RECOVERED) := by
  unfold next_agent_status
  dsimp only
  split_ifs <;> refine ⟨rfl, ?_⟩ <;> simp <;> cases a.state <;> simp

/-- C5 amended witness: `engine_output_shape` at the out-of-range
stability `3/2`. -/
theorem engine_output_shape_witness :
    th0.valid ∧
    ((next_agent_status ⟨AgentState.STABLE, 3/2⟩ th0).next_status.stability =
      AgentStatus.stability ⟨AgentState.STABLE, 3/2⟩ ∧
    ((next_agent_status ⟨AgentState.STABLE, 3/2⟩ th0).next_status.state = AgentState.STABLE ∨
     (next_agent_status ⟨AgentState.STABLE, 3/2⟩ th0).next_status.state = AgentState.LOADED ∨
     (next_agent_status ⟨AgentState.STABLE, 3/2⟩ th0).next_status.state = AgentState.HELP_SEEKING ∨
     (next_agent_status ⟨AgentState.STABLE, 3/2⟩ th0).next_status.state = AgentState.REST ∨
     (next_agent_status ⟨AgentState.STABLE, 3/2⟩ th0).next_status.state = AgentState.RECOVERED)) :=
  ⟨by unfold Thresholds.valid th0; norm_num,
    engine_output_shape th0 ⟨AgentState.STABLE, 3/2⟩ (by unfold Thresholds.valid th0; norm_num)⟩

/-- C6: REST entry is strict at the boundary.  With the state neither
`HELP_SEEKING` nor `REST` and HELP entry not applying, a stability equal
to `rest_enter` does not move the agent to `REST` and emits no
`ENTER_REST`, while any stability strictly below `rest_enter` moves it to
`REST` emitting `ENTER_REST`. -/
theorem rest_entry_strict (th : Thresholds) (a : AgentStatus)
    (hs1 : a.state ≠ AgentState.HELP_SEEKING) (hs2 : a.state ≠ AgentState.REST)
    (hh : ¬(help_enabled th = true ∧ a.stability ≤ th.help_enter)) :
    (a.stability = th.rest_enter →
      (next_agent_status a th).next_status.state ≠ AgentState.REST ∧
      TransitionEvent.ENTER_REST ∉ (next_agent_status a th).events) ∧
    (a.stability < th.rest_enter →
      next_agent_status a th =
        ⟨⟨AgentState.REST, a.stability⟩, [TransitionEvent.ENTER_REST]⟩) := by
  constructor
  · intro hx
    simp only [next_agent_status, rest_enabled, hs1, hs2, hh, hx]
    split_ifs <;> simp_all
  · intro hx
    simp [next_agent_status, rest_enabled, hs1, hs2, hh, hx]

/-- C6 witness: `rest_entry_strict` with `rest_enter = 3/5` at the exact
boundary stability `3/5`, from `STABLE`. -/
theorem rest_entry_strict_witness :
    (AgentStatus.state ⟨AgentState.STABLE, 3/5⟩ ≠ AgentState.HELP_SEEKING) ∧
    (AgentStatus.state ⟨AgentState.STABLE, 3/5⟩ ≠ AgentState.REST) ∧
    ¬(help_enabled th1 = true ∧ AgentStatus.stability ⟨AgentState.STABLE, 3/5⟩ ≤ th1.help_enter) ∧
    ((AgentStatus.stability ⟨AgentState.STABLE, 3/5⟩ = th1.rest_enter →
      (next_agent_status ⟨AgentState.STABLE, 3/5⟩ th1).next_status.state ≠ AgentState.REST ∧
      TransitionEvent.ENTER_REST ∉ (next_agent_status ⟨AgentState.STABLE, 3/5⟩ th1).events) ∧
    (AgentStatus.stability ⟨AgentState.STABLE, 3/5⟩ < th1.rest_enter →
      next_agent_status ⟨AgentState.STABLE, 3/5⟩ th1 =
        ⟨⟨AgentState.REST, 3/5⟩, [TransitionEvent.ENTER_REST]⟩)) :=
  ⟨by simp, by simp, by norm_num [help_enabled, th1],
    rest_entry_strict th1 ⟨AgentState.STABLE, 3/5⟩ (by simp) (by simp)
      (by norm_num [help_enabled, th1])⟩


/-- Index lemma: mapping over the zip of two lists, position `i` holds
`f` of the two entries at `i`. -/
lemma getElem?_zip_map (f : ℚ × AgentState → ℚ) :
    ∀ (raw : List ℚ) (states : List AgentState) (i : ℕ) (x : ℚ) (s : AgentState),
      raw[i]? = some x → states[i]? = some s →
      ((raw.zip states).map f)[i]? = some (f (x, s)) := by
  intro raw
  induction raw with
  | nil => intro states i x s hx hs; simp at hx
  | cons a t ih =>
    intro states i x s hx hs
    cases states with
    | nil => simp at hs
    | cons b u =>
      cases i with
      | zero => simp_all
      | succ j => simpa using ih u j x s (by simpa using hx) (by simpa using hs)

/-- Arithmetic lemma: the source's capping pattern
`if pre > cap then cap else pre` is the minimum of the two. -/
lemma ite_gt_eq_min (a b : ℚ) : (if b > a then a else b) = min a b := by
  rcases le_total a b with h | h
  · rcases lt_or_eq_of_le h with h' | h'
    · simp [h', min_eq_left h]
    · simp [← h']
  · simp [min_eq_right h, not_lt.mpr h]

/-- C7: the contagion algorithm.  For every enabled `ContagionConfig`,
environment, and equal-length raw/state lists with at least one source
agent, `apply_contagion` succeeds and, position by position: a source
agent's raw value is clamped to `[0,1]` unchanged; a non-source agent
that is not `STABLE` while `only_affects_stable` is set is clamped
unchanged; every other agent has
`influence = min(max_total_delta, delta * k * scale)` subtracted and is
clamped to `[0,1]`, with `scale = dense_scale` under `DENSE` and
`calm_scale` otherwise. -/
theorem contagion_alg (cfg : ContagionConfig) (env : EnvironmentState)
    (raw : List ℚ) (states : List AgentState)
    (hen : cfg.enabled = true)
    (hlen : raw.length = states.length)
    (hk : 0 < (states.filter (fun s => s ∈ cfg.source_states)).length) :
    ∃ out, apply_contagion raw states env cfg = Except.ok out ∧
      out.length = raw.length ∧
      ∀ (i : ℕ) (x : ℚ) (s : AgentState), raw[i]? = some x → states[i]? = some s →
        out[i]? = some (
          if s ∈ cfg.source_states then clamp01 x
          else if cfg.only_affects_stable = true ∧ s ≠ AgentState.STABLE then clamp01 x
          else clamp01 (x - min cfg.max_total_delta
            (cfg.delta * ((states.filter (fun t => t ∈ cfg.source_states)).length : ℚ) *
              (if env = EnvironmentState.DENSE then cfg.dense_scale else cfg.calm_scale)))) := by
  have hen' : ¬(cfg.enabled = false) := by simp [hen]
  have hlen' : ¬(raw.length ≠ states.length) := by simp [hlen]
  have hk' : ¬((states.filter (fun s => s ∈ cfg.source_states)).length = 0) :=
    Nat.pos_iff_ne_zero.mp hk
  refine ⟨(raw.zip states).map (fun p =>
      if p.2 ∈ cfg.source_states then clamp01 p.1
      else if cfg.only_affects_stable = true ∧ p.2 ≠ AgentState.STABLE then clamp01 p.1
      else clamp01 (p.1 -
        (if cfg.delta * ((states.filter (fun s => s ∈ cfg.source_states)).length : ℚ) *
              (if env = EnvironmentState.DENSE then cfg.dense_scale else cfg.calm_scale) >
            cfg.max_total_delta then cfg.max_total_delta
          else cfg.delta * ((states.filter (fun s => s ∈ cfg.source_states)).length : ℚ) *
              (if env = EnvironmentState.DENSE then cfg.dense_scale else cfg.calm_scale)))),
    ?_, ?_, ?_⟩
  · unfold apply_contagion
    dsimp only
    rw [if_neg hen', if_neg hlen', if_neg hk']
  · rw [List.length_map, List.length_zip, hlen, min_self]
  · intro i x s hx hs
    rw [getElem?_zip_map _ raw states i x s hx hs]
    congr 1
    rw [ite_gt_eq_min]

/-- C7 witness: `contagion_alg` on the default configuration under a
`DENSE` environment with one `REST` source and one `STABLE` target. -/
theorem contagion_alg_witness :
    ContagionConfig.enabled {} = true ∧
    ([9/10, 1/2] : List ℚ).length = ([AgentState.REST, AgentState.STABLE] : List AgentState).length ∧
    0 < (([AgentState.REST, AgentState.STABLE] : List AgentState).filter
          (fun s => s ∈ ContagionConfig.source_states {})).length ∧
    (∃ out, apply_contagion [9/10, 1/2] [AgentState.REST, AgentState.STABLE]
        EnvironmentState.DENSE {} = Except.ok out ∧
      out.length = ([9/10, 1/2] : List ℚ).length ∧
      ∀ (i : ℕ) (x : ℚ) (s : AgentState),
        ([9/10, 1/2] : List ℚ)[i]? = some x →
        ([AgentState.REST, AgentState.STABLE] : List AgentState)[i]? = some s →
        out[i]? = some (
          if s ∈ ContagionConfig.source_states {} then clamp01 x
          else if ContagionConfig.only_affects_stable {} = true ∧ s ≠ AgentState.STABLE then clamp01 x
          else clamp01 (x - min (ContagionConfig.max_total_delta {})
            (ContagionConfig.delta {} *
              ((([AgentState.REST, AgentState.STABLE] : List AgentState).filter
                  (fun t => t ∈ ContagionConfig.source_states {})).length : ℚ) *
              (if EnvironmentState.DENSE = EnvironmentState.DENSE
                then ContagionConfig.dense_scale {} else ContagionConfig.calm_scale {}))))) :=
  ⟨rfl, by decide, by decide,
    contagion_alg {} EnvironmentState.DENSE [9/10, 1/2] [AgentState.REST, AgentState.STABLE]
      rfl (by decide) (by decide)⟩

/-- C8: the end-to-end single-agent scenario.  With thresholds
`{help_enter:0.30, help_exit:0.40, rest_enter:0.20, rest_exit:0.35,
visual_min_stable:0.75}`, start `LOADED@0.5` and samples
`[0.25, 0.28, 0.45]`, the runner produces exactly three steps:
`HELP_SEEKING`/`ENTER_HELP`, `HELP_SEEKING`/no event,
`RECOVERED`/`EXIT_HELP`. -/
theorem single_agent_scenario :
    run_simulation ⟨AgentState.LOADED, 1/2⟩ [1/4, 28/100, 45/100] th0 =
      [⟨⟨AgentState.HELP_SEEKING, 1/4⟩, [TransitionEvent.ENTER_HELP]⟩,
       ⟨⟨AgentState.HELP_SEEKING, 28/100⟩, []⟩,
       ⟨⟨AgentState.RECOVERED, 45/100⟩, [TransitionEvent.EXIT_HELP]⟩] ∧
    (run_simulation ⟨AgentState.LOADED, 1/2⟩ [1/4, 28/100, 45/100] th0).map
        SimulationStep.event =
      [some TransitionEvent.ENTER_HELP, none, some TransitionEvent.EXIT_HELP] := by
  constructor
  · norm_num [run_simulation, next_agent_status, th0, help_enabled, rest_enabled]
    simp
  · norm_num [run_simulation, next_agent_status, th0, help_enabled, rest_enabled,
      SimulationStep.event]
    simp [SimulationStep.event]

/-- C9 counterexample: a disabled `ContagionConfig` with mismatched
lengths (`raw` has one entry, `states` none) does not fail: the disabled
early-return precedes the length check, so `apply_contagion` returns the
raw list unchanged. -/
theorem contagion_disabled_counterexample :
    ContagionConfig.enabled { enabled := false } = false ∧
    ([1/2] : List ℚ).length ≠ ([] : List AgentState).length ∧
    apply_contagion [1/2] [] EnvironmentState.CALM { enabled := false } =
      Except.ok [1/2] :=
  ⟨rfl, by decide, rfl⟩

/-- C9 amended: for every ENABLED `ContagionConfig` and every pair of
raw/state lists of differing lengths, `apply_contagion` fails with the
length-mismatch error and produces no output value; a disabled
configuration instead returns the raw list without checking lengths. -/
theorem contagion_length_error (cfg : ContagionConfig) (env : EnvironmentState)
    (raw : List ℚ) (states : List AgentState)
    (hen : cfg.enabled = true) (hne : raw.length ≠ states.length) :
    apply_contagion raw states env cfg =
      Except.error "raw_stabilities and current_states must be the same length." := by
  unfold apply_contagion
  dsimp only
  rw [if_neg (by simp [hen]), if_pos hne]

/-- C9 amended witness: `contagion_length_error` on the default (enabled)
configuration with `raw = [1/2]` and no states. -/
theorem contagion_length_error_witness :
    ContagionConfig.enabled {} = true ∧
    ([1/2] : List ℚ).length ≠ ([] : List AgentState).length ∧
    apply_contagion [1/2] [] EnvironmentState.CALM {} =
      Except.error "raw_stabilities and current_states must be the same length." :=
  ⟨rfl, by decide,
    contagion_length_error {} EnvironmentState.CALM [1/2] [] rfl (by decide)⟩

/-- C10: with HELP disabled (both thresholds negative), an agent in
`HELP_SEEKING` loses stickiness and its exit rule: it never reaches
`RECOVERED` and never emits `EXIT_HELP`; instead it enters `REST` with
`ENTER_REST` when the stability is strictly below `rest_enter`, and
otherwise remains `HELP_SEEKING` with no event. -/
theorem help_disabled_behavior (th : Thresholds) (a : AgentStatus)
    (h : help_enabled th = false) (hs : a.state = AgentState.HELP_SEEKING) :
    (a.stability < th.rest_enter →
      next_agent_status a th =
        ⟨⟨AgentState.REST, a.stability⟩, [TransitionEvent.ENTER_REST]⟩) ∧
    (th.rest_enter ≤ a.stability →
      next_agent_status a th = ⟨⟨AgentState.HELP_SEEKING, a.stability⟩, []⟩) ∧
    (next_agent_status a th).next_status.state ≠ AgentState.RECOVERED ∧
    TransitionEvent.EXIT_HELP ∉ (next_agent_status a th).events := by
  refine ⟨fun hx => ?_, fun hx => ?_, ?_⟩
  · simp [next_agent_status, rest_enabled, h, hs, hx]
  · simp [next_agent_status, rest_enabled, h, hs, not_lt.mpr hx]
  · rcases lt_or_le a.stability th.rest_enter with hx | hx
    · simp [next_agent_status, rest_enabled, h, hs, hx]
    · simp [next_agent_status, rest_enabled, h, hs, not_lt.mpr hx]

/-- C10 witness: `help_disabled_behavior` with the sentinel-disabled
thresholds at maximal stability `1`, which stays `HELP_SEEKING`. -/
theorem help_disabled_behavior_witness :
    help_enabled th_help_off = false ∧
    (((1:ℚ) < th_help_off.rest_enter →
      next_agent_status ⟨AgentState.HELP_SEEKING, 1⟩ th_help_off =
        ⟨⟨AgentState.REST, 1⟩, [TransitionEvent.ENTER_REST]⟩) ∧
    (th_help_off.rest_enter ≤ (1:ℚ) →
      next_agent_status ⟨AgentState.HELP_SEEKING, 1⟩ th_help_off =
        ⟨⟨AgentState.HELP_SEEKING, 1⟩, []⟩) ∧
    (next_agent_status ⟨AgentState.HELP_SEEKING, 1⟩ th_help_off).next_status.state ≠
      AgentState.RECOVERED ∧
    TransitionEvent.EXIT_HELP ∉
      (next_agent_status ⟨AgentState.HELP_SEEKING, 1⟩ th_help_off).events) :=
  ⟨by norm_num [help_enabled, th_help_off],
    help_disabled_behavior th_help_off ⟨AgentState.HELP_SEEKING, 1⟩
      (by norm_num [help_enabled, th_help_off]) (by simp)⟩

end SandboxTown
